import Mathlib

/-!
Verification of the rspq/rdpq command-queue client protocol of the
libdragon2-rs binding layer, as a shallow embedding of `src/rspq.rs`,
`src/rdpq.rs`, `src/graphics.rs` and `src/lib.rs`.  External C functions and
constants that live in the bound library (the `sys` crate) are modelled from
the specification and marked as such in their doc comments.
-/

namespace RspqEmbed

/-- Maximum number of argument words accepted by `RspQ::write`.
Modelled from the spec: the constant `RSPQ_MAX_SHORT_COMMAND_SIZE` lives in
the external `sys` bindings crate (not under `src/`); the doc comment of
`RspQ::write` states that it supports up to 16 argument words, matching the
bound library's value 16. -/
def RSPQ_MAX_SHORT_COMMAND_SIZE : Nat := 16

/-- Maximum total command size in 32-bit words for `RspQ::write_begin`.
Modelled from the spec: the constant `RSPQ_MAX_COMMAND_SIZE` lives in the
external `sys` bindings crate (not under `src/`); the bound library defines
it as 63, which is also the sentinel margin of each ring buffer. -/
def RSPQ_MAX_COMMAND_SIZE : Nat := 63

/-- Number of 32-bit words of each of the two ring buffers.  Modelled from
the spec: the ring is double-buffered with two fixed-size buffers; the
concrete size is configured in the external library and none of the claims
depend on it, so it is fixed at 128 words here. -/
def RSPQ_BUF_WORDS : Nat := 128

/-- Observable events of the command writer: a volatile 32-bit store of
`val` at word address `addr`, or a buffer switch performed by the external
`rspq_next_buffer`. -/
inductive Ev where
  | store (addr val : Nat)
  | switchBuf
deriving Repr, DecidableEq

/-- Producer-side state of the ring writer: the values of the globals
`rspq_cur_pointer` and `rspq_cur_sentinel` (as word addresses), which of the
two physical buffers is current, and the trace of events performed so far
(oldest first). -/
structure WState where
  cur : Nat
  sentinel : Nat
  curBuf : Bool
  trace : List Ev
deriving Repr, DecidableEq

/-- Base word address of each of the two physical buffers. -/
def bufBase (b : Bool) : Nat := if b then RSPQ_BUF_WORDS else 0

/-- Modelled from the spec: `rspq_next_buffer` is part of the external C
library.  Per the spec, the buffer switch is encoded as an in-band command
for the consumer (abstracted here into the single `switchBuf` event, since no
claim depends on the encoding) and it moves the write cursor to the start of
the other physical buffer, with the sentinel at buffer end minus the maximum
command size. -/
def nextBuffer (st : WState) : WState :=
  let b := !st.curBuf
  { cur := bufBase b
    sentinel := bufBase b + RSPQ_BUF_WORDS - RSPQ_MAX_COMMAND_SIZE
    curBuf := b
    trace := st.trace ++ [Ev.switchBuf] }

/-- First word of a command as computed by the source:
`ovl_id + (cmd_id << 24)` in u32 arithmetic. -/
def header (ovl cmd : Nat) : Nat := (ovl + cmd * 2 ^ 24) % 2 ^ 32

/-- `RspQ::write` (src/src/rspq.rs lines 53-71): reads `ptr` from
`rspq_cur_pointer`, stores argument word `i` at `ptr + (i + 1)`, then stores
the header word `ovl_id + (cmd_id << 24)` at `ptr`, advances the cursor to
`ptr + 1 + args.len()`, and finally calls `rspq_next_buffer` when the
command's start position `ptr` lies past the sentinel.  Note that the
argument words are NOT merged into the header word, and that the buffer
switch check happens after all the stores. -/
def write (ovl cmd : Nat) (args : List Nat) (st : WState) : WState :=
  let ptr := st.cur
  let st1 : WState :=
    { st with trace := st.trace ++ args.enum.map fun p => Ev.store (ptr + (p.1 + 1)) p.2 }
  let st2 : WState := { st1 with trace := st1.trace ++ [Ev.store ptr (header ovl cmd)] }
  let st3 : WState := { st2 with cur := ptr + 1 + args.length }
  if st3.sentinel < ptr then nextBuffer st3 else st3

/-- The `Write` cursor returned by `RspQ::write_begin`
(src/src/rspq.rs lines 196-203). -/
structure WriteCursor where
  firstWord : Nat
  pointer : Nat
  first : Nat
  isFirst : Bool
deriving Repr, DecidableEq

/-- `RspQ::write_begin` (src/src/rspq.rs lines 74-98): reads `cur` from
`rspq_cur_pointer`, calls `rspq_next_buffer` when
`rspq_cur_pointer > rspq_cur_sentinel - size` (rendered as
`sentinel < cur + size`; the pointer subtraction cannot underflow for real
sentinel addresses), then stores `cur + size` into `rspq_cur_pointer` and
returns the write cursor.  Both of these use the value of `cur` that was read
BEFORE the potential buffer switch, exactly as the source does (the source
reads `cur` on line 81, before the branch on lines 82-88).  The debug
assertion on `size` is modelled separately in `writeBeginChecked`. -/
def writeBegin (ovl cmd size : Nat) (st : WState) : WState × WriteCursor :=
  let cur := st.cur
  let st1 := if st.sentinel < cur + size then nextBuffer st else st
  ({ st1 with cur := cur + size },
   { firstWord := header ovl cmd, pointer := cur + 1, first := cur, isFirst := true })

/-- `Write::arg` (src/src/rspq.rs lines 219-229): the first argument is
OR-ed into the pending first word; every later argument is stored at the
running pointer, which is then incremented. -/
def writeArg (st : WState) (w : WriteCursor) (value : Nat) : WState × WriteCursor :=
  if w.isFirst then
    (st, { w with firstWord := w.firstWord ||| value, isFirst := false })
  else
    ({ st with trace := st.trace ++ [Ev.store w.pointer value] },
     { w with pointer := w.pointer + 1 })

/-- `Write::end` (src/src/rspq.rs lines 232-237): stores the accumulated
first word at the command's first slot. -/
def writeEnd (st : WState) (w : WriteCursor) : WState :=
  { st with trace := st.trace ++ [Ev.store w.first w.firstWord] }

/-- The incremental sequence: `write_begin(ovl, cmd, size)`, one `Write::arg`
call per argument word, then `Write::end`. -/
def writeIncr (ovl cmd size : Nat) (args : List Nat) (st : WState) : WState :=
  let p0 := writeBegin ovl cmd size st
  let p1 := args.foldl (fun p a => writeArg p.1 p.2 a) p0
  writeEnd p1.1 p1.2

/-- Value last stored at word address `a` by the events of `tr`, if any. -/
def memAt (tr : List Ev) (a : Nat) : Option Nat :=
  tr.foldl
    (fun acc e =>
      match e with
      | Ev.store addr val => if addr = a then some val else acc
      | Ev.switchBuf => acc)
    none

/-- `RspQ::write` together with its compile-time bound
(src/src/rspq.rs lines 54-59): the `const` assertion rejects any argument
count above `RSPQ_MAX_SHORT_COMMAND_SIZE` outright, in every build profile,
before any word is written; otherwise the call behaves as `write`. -/
def writeChecked (ovl cmd : Nat) (args : List Nat) (st : WState) : Option WState :=
  if args.length ≤ RSPQ_MAX_SHORT_COMMAND_SIZE then some (write ovl cmd args st) else none

/-- `RspQ::write_begin` together with its debug assertion
(src/src/rspq.rs lines 75-78), where `debug` is true iff debug assertions are
compiled in: sizes above `RSPQ_MAX_COMMAND_SIZE` fail before any space is
reserved. -/
def writeBeginChecked (debug : Bool) (ovl cmd size : Nat) (st : WState) :
    Except String (WState × WriteCursor) :=
  if debug ∧ RSPQ_MAX_COMMAND_SIZE < size then
    Except.error "The maximum command size is 63!"
  else
    Except.ok (writeBegin ovl cmd size st)

/-- The five must-finish handle kinds of the library that are guarded by the
drop-bomb pattern: the `Write` command cursor (src/src/rspq.rs 205-214), the
`Attachment` (src/src/rdpq.rs 1080-1089), the `Highpri` segment
(src/src/rspq.rs 246-255), the `BlockBuilder` (src/src/rspq.rs 306-315) and
the `TexMulti` bracket (src/src/rdpq.rs 1641-1650). -/
inductive MustFinish where
  | writeCursor
  | attachment
  | highpri
  | blockBuilder
  | texMulti
deriving Repr, DecidableEq

/-- The `Undroppable::ERROR` message of each must-finish handle, verbatim
from the source. -/
def dropMsg : MustFinish → String
  | MustFinish.writeCursor => "Finish the RSPQ write Write::end"
  | MustFinish.attachment =>
      "Finish the attachment with Attachment::detach, Attachment::detach_cb, Attachment::show, or Attachment::wait"
  | MustFinish.highpri => "Finish the high priority block with Highpri::end"
  | MustFinish.blockBuilder => "Finish the block with BlockBuilder::end"
  | MustFinish.texMulti => "Finish the multi-texture upload with TexMulti::end"

/-- `DropBomb::new` on a handle, immediately followed by the bomb's own drop,
which fails hard with the handle type's `Undroppable::ERROR` message
(src/src/lib.rs lines 59-77).  A failing result is a panic. -/
def dropBomb (msg : String) : Except String Unit := Except.error msg

/-- `Drop::drop` of an unfinished must-finish handle: each of the five
`Drop` impls constructs a `DropBomb` from the handle
(e.g. src/src/rspq.rs lines 209-214), so dropping an unfinished handle fails
with the handle's message.  The explicit finish methods (`Write::end`,
`Attachment::detach` and variants, `Highpri::end`, `BlockBuilder::end`,
`TexMulti::end`) wrap the handle in `ManuallyDrop`, so they never run this
drop code. -/
def dropUnfinished (h : MustFinish) : Except String Unit := dropBomb (dropMsg h)

/-- Global rspq state relevant to block recording: the process-wide
`rspq_block` pointer (`none` stands for NULL) that marks the block currently
being recorded, and whether the command writer's output is redirected from
the live ring into a block buffer. -/
structure BlockState where
  rspq_block : Option Nat
  redirected : Bool
deriving Repr, DecidableEq

/-- Modelled from the spec: the external C `rspq_block_begin` allocates a
fresh block buffer (identified by `fresh` here), records it in the
process-wide `rspq_block` pointer, and redirects subsequent writes from the
live ring into the block buffer. -/
def rspq_block_begin (fresh : Nat) : BlockState :=
  { rspq_block := some fresh, redirected := true }

/-- `RspQ::block_begin` (src/src/rspq.rs lines 129-135): asserts that the
process-wide `rspq_block` pointer is null, then calls the external
`rspq_block_begin`. -/
def block_begin (g : BlockState) (fresh : Nat) : Except String BlockState :=
  if g.rspq_block.isSome then
    Except.error "assertion failed: rspq_block.is_null()"
  else
    Except.ok (rspq_block_begin fresh)

/-- Events of the syncpoint layer of the queue. -/
inductive QEv where
  | syncpointCb (func arg : Nat)
  | flushEv
deriving Repr, DecidableEq

/-- Syncpoint-level state of the queue: the stream of syncpoint/flush
operations issued so far, and the next syncpoint token to hand out. -/
structure QState where
  events : List QEv
  nextSync : Nat
deriving Repr, DecidableEq

/-- Modelled from the spec: the external `rspq_syncpoint_new_cb` records a
syncpoint-with-callback at the current position of the command stream and
returns the fresh, monotonically increasing token.
`RspQ::syncpoint_cb` (src/src/rspq.rs 117-119) is a direct call into it. -/
def syncpoint_cb (func arg : Nat) (st : QState) : QState × Nat :=
  ({ events := st.events ++ [QEv.syncpointCb func arg], nextSync := st.nextSync + 1 },
   st.nextSync)

/-- Modelled from the spec: the external `rspq_flush` makes sure the consumer
will observe all commands written so far, without blocking.
`RspQ::flush` (src/src/rspq.rs 101-103) is a direct call into it. -/
def flush (st : QState) : QState := { st with events := st.events ++ [QEv.flushEv] }

/-- `RspQ::call_deferred` (src/src/rspq.rs lines 122-125): calls
`self.syncpoint_cb(func, data)`, discarding the returned `Syncpoint` token
(which has no drop side effect), and then `self.flush()`. -/
def call_deferred (func arg : Nat) (st : QState) : QState :=
  flush (syncpoint_cb func arg st).1

end RspqEmbed

namespace RdpqEmbed

/-- Modelled from the spec: bit 0-1 field of the 64-bit other-modes register
selecting the alpha-compare mode.  The `SOM_*`/`SOMX_*` constants live in the
external `sys` bindings of the bound library's rdpq_macros.h (not under
`src/`); the claims depend only on the constants being the distinct nonzero
bit masks that the spec describes. -/
def SOM_ALPHACOMPARE_MASK : Nat := 3

/-- Modelled from the spec: alpha-compare-by-threshold mode (bit 0), see
`SOM_ALPHACOMPARE_MASK`. -/
def SOM_ALPHACOMPARE_THRESHOLD : Nat := 1

/-- Modelled from the spec: noise-based alpha-compare mode (bits 0 and 1),
see `SOM_ALPHACOMPARE_MASK`. -/
def SOM_ALPHACOMPARE_NOISE : Nat := 3

/-- Modelled from the spec: the Z-source-is-primitive mode bit (bit 2) of the
other-modes register, see `SOM_ALPHACOMPARE_MASK`. -/
def SOM_ZSOURCE_PRIM : Nat := 2 ^ 2

/-- Modelled from the spec: the forced-blending bit (bit 14) of the
other-modes register, see `SOM_ALPHACOMPARE_MASK`. -/
def SOM_BLENDING : Nat := 2 ^ 14

/-- Modelled from the spec: the library-internal extension bit (bit 15)
recording that the configured blender formula takes two passes, see
`SOM_ALPHACOMPARE_MASK`. -/
def SOMX_BLEND_2PASS : Nat := 2 ^ 15

/-- Modelled from the spec: the library-internal fog extension bit (bit 32)
of the tracked other-modes value, see `SOM_ALPHACOMPARE_MASK`. -/
def SOMX_FOG : Nat := 2 ^ 32

/-- Calls into the rdpq lower layer that are observable from the mode
setters: a masked update of the 64-bit other-modes register
(`mode_change_som`, src/src/rdpq.rs 1226-1245), the blend-color register
write (`RdpQ::set_blend_color`, src/src/rdpq.rs 686-690), the prim-depth
register write (`RdpQ::set_prim_depth_raw`, src/src/rdpq.rs 457-466), and
the fog-mode fixup command
(`__rdpq_fixup_mode(RDPQ_CMD_SET_FOG_MODE, 0, fog)`). -/
inductive RdpOp where
  | modeChangeSom (mask val : Nat)
  | setBlendColor (color : Nat)
  | setPrimDepthRaw (primZ : Nat) (primDz : Int)
  | setFogMode (fog : Nat)
deriving Repr, DecidableEq

/-- `Color::rgba32(r, g, b, a).into_u32()` (src/src/graphics.rs lines 67-69
and 109-111): the four byte components packed big-endian, r in the top
byte and a in the bottom byte. -/
def colorU32 (r g b a : Nat) : Nat := r * 2 ^ 24 + g * 2 ^ 16 + b * 2 ^ 8 + a

/-- `RdpQModes::mode_alphacompare` (src/src/rdpq.rs lines 1378-1387).
`threshold` is the i32 argument; `threshold as u8` is its low byte, which for
a positive i32 is `threshold.toNat % 256`. -/
def mode_alphacompare (threshold : Int) : List RdpOp :=
  if threshold = 0 then
    [RdpOp.modeChangeSom SOM_ALPHACOMPARE_MASK 0]
  else if 0 < threshold then
    [RdpOp.modeChangeSom SOM_ALPHACOMPARE_MASK SOM_ALPHACOMPARE_THRESHOLD,
     RdpOp.setBlendColor (colorU32 0 0 0 (threshold.toNat % 256))]
  else
    [RdpOp.modeChangeSom SOM_ALPHACOMPARE_MASK SOM_ALPHACOMPARE_NOISE]

/-- `RdpQModes::mode_zoverride` (src/src/rdpq.rs lines 1398-1406).  The f32
conversion `(z * 0x7FFF as f32) as u16` is performed on the caller's value
before any observable effect; the already-converted result is taken here as
the `primZ` parameter, since the claims concern only which registers are
written and in which order, not the floating-point conversion. -/
def mode_zoverride (enable : Bool) (primZ : Nat) (deltaz : Int) : List RdpOp :=
  (if enable then [RdpOp.setPrimDepthRaw primZ deltaz] else []) ++
    [RdpOp.modeChangeSom SOM_ZSOURCE_PRIM (if enable then SOM_ZSOURCE_PRIM else 0)]

/-- `RdpQModes::mode_fog` (src/src/rdpq.rs lines 1354-1367): a non-zero fog
formula first gets `SOM_BLENDING` forced on and is then asserted to have the
`SOMX_BLEND_2PASS` bit clear; afterwards the fog extension bit is set (for a
non-zero formula) or cleared (for 0) via `mode_change_som`, and the resulting
formula is sent with the fog-mode fixup command. -/
def mode_fog (fog0 : Nat) : Except String (List RdpOp) :=
  if fog0 ≠ 0 then
    let fog := fog0 ||| SOM_BLENDING
    if fog &&& SOMX_BLEND_2PASS ≠ 0 then
      Except.error "Fogging cannot be used with two-pass blending formulas"
    else
      Except.ok [RdpOp.modeChangeSom SOMX_FOG SOMX_FOG, RdpOp.setFogMode fog]
  else
    Except.ok [RdpOp.modeChangeSom SOMX_FOG 0, RdpOp.setFogMode 0]

/-- `RdpQ::load_block` (src/src/rdpq.rs lines 559-571), with `debug` true iff
debug assertions are compiled in.  Rust integer division panics on a zero
divisor in every build profile, so the division computing the `dxt` parameter
is rendered as a checked operation.  On success the source calls
`load_block_fx(tile, s0, t0, num_texels, dxt)`; the two computed arguments
`(num_texels, dxt)` of that call are returned. -/
def load_block (debug : Bool) (numTexels tmemPitch : Nat) : Except String (Nat × Nat) :=
  if debug ∧ ¬ numTexels ≤ 2048 then
    Except.error "invalid num_texels: must be smaller than 2048"
  else if debug ∧ ¬ tmemPitch % 8 = 0 then
    Except.error "invalid tmem_pitch: must be multiple of 8"
  else
    let words := tmemPitch / 8
    if words = 0 then
      Except.error "attempt to divide by zero"
    else
      Except.ok (numTexels, (2048 + words - 1) / words)

end RdpqEmbed

open RspqEmbed RdpqEmbed

/-- C1 (code bug): the claim and the function's own doc comment state that
word 0 of a command written by `RspQ::write` is
`overlay_id | (cmd_id << 24) | (args[0] if present else 0)` with the
subsequent words equal to `args[1..]`, so that
`write(0x10000000, 0x2, [0x00FF2233])` produces the single header word
`0x12FF2233`.  The code never merges `args[0]` into the header: it stores
`0x12000000` at word 0 and `0x00FF2233` at word 1 (while advancing the
cursor by `1 + len(args)` words). -/
theorem c1_write_framing_code_bug :
    RspqEmbed.memAt
        (RspqEmbed.write 0x10000000 0x2 [0x00FF2233] ⟨0, 65, false, []⟩).trace 0 =
        some 0x12000000 ∧
      RspqEmbed.memAt
          (RspqEmbed.write 0x10000000 0x2 [0x00FF2233] ⟨0, 65, false, []⟩).trace 0 ≠
        some 0x12FF2233 ∧
      RspqEmbed.memAt
          (RspqEmbed.write 0x10000000 0x2 [0x00FF2233] ⟨0, 65, false, []⟩).trace 1 =
        some 0x00FF2233 ∧
      (RspqEmbed.write 0x10000000 0x2 [0x00FF2233] ⟨0, 65, false, []⟩).cur = 2 := by decide

/-- C2 (code bug): `write_begin` + one `Write::arg` per argument + `Write::end`
is NOT equivalent to a single `RspQ::write` with the same overlay, command and
arguments, although the doc comment of `write_begin` says it is functionally
equivalent.  First, `write` does not merge `args[0]` into the header while the
incremental cursor does, so the stored words differ at word 0 (with the
claimed size `1 + len(args)`) or the final cursors differ (with size
`len(args)`).  Second, in the buffer-switch case `write_begin` uses the
cursor value read before `rspq_next_buffer`, so the two paths end up in
different buffers. -/
theorem c2_incremental_inequivalent_code_bug :
    (RspqEmbed.memAt
        (RspqEmbed.write 0x10000000 0x2 [0x00FF2233] ⟨0, 65, false, []⟩).trace 0 ≠
      RspqEmbed.memAt
        (RspqEmbed.writeIncr 0x10000000 0x2 2 [0x00FF2233] ⟨0, 65, false, []⟩).trace 0) ∧
    (RspqEmbed.write 0x10000000 0x2 [0x00FF2233] ⟨0, 65, false, []⟩ ≠
      RspqEmbed.writeIncr 0x10000000 0x2 1 [0x00FF2233] ⟨0, 65, false, []⟩) ∧
    ((RspqEmbed.write 0x10000000 0x1 [0, 0, 0, 0, 0, 0, 0, 0, 0] ⟨60, 65, false, []⟩).curBuf ≠
      (RspqEmbed.writeIncr 0x10000000 0x1 10 [0, 0, 0, 0, 0, 0, 0, 0, 0]
        ⟨60, 65, false, []⟩).curBuf) := by decide

/-- C3 (counterexample): the claim says that in `RspQ::write`, whenever the
new cursor position would pass the sentinel, `rspq_next_buffer` is performed
before the command's words are written, so that no command word is stored
beyond the sentinel margin of the current buffer.  Part one: a `write` whose
new cursor (68) passes the sentinel (65) stores all of its words with no
buffer switch at all.  Part two: a `write_begin` that does switch buffers
still stores its command words at the stale pre-switch position, i.e. inside
the old buffer, not the current one. -/
theorem c3_sentinel_counterexample :
    (let st := RspqEmbed.write 0x10000000 0x2 [5, 6] ⟨65, 65, false, []⟩
     65 < st.cur ∧
       st.trace = [Ev.store 66 5, Ev.store 67 6, Ev.store 65 0x12000000] ∧
       Ev.switchBuf ∉ st.trace) ∧
    (let st := RspqEmbed.writeIncr 0x10000000 0x2 10 [1, 2, 3, 4, 5, 6, 7, 8, 9]
        ⟨60, 65, false, []⟩
     st.curBuf = true ∧
       RspqEmbed.memAt st.trace 60 = some 0x12000001 ∧
       60 < RspqEmbed.bufBase st.curBuf) := by decide

/-- C3 (amended): in `RspQ::write` the command's words are always written at
the current cursor position first, and `rspq_next_buffer` runs after them,
exactly when the command's start position lies past the sentinel; in
`RspQ::write_begin` the buffer switch runs before any of the command's words,
exactly when start position plus reserved size passes the sentinel, but the
reserved region (and hence the command's words) stays at the pre-switch
position and the cursor is set to start plus size. -/
theorem c3_switch_ordering_amended :
    ∀ (st : WState) (ovl cmd size : Nat) (args : List Nat),
      (RspqEmbed.write ovl cmd args st).trace =
          st.trace ++ (args.enum.map fun p => Ev.store (st.cur + (p.1 + 1)) p.2)
            ++ [Ev.store st.cur (RspqEmbed.header ovl cmd)]
            ++ (if st.sentinel < st.cur then [Ev.switchBuf] else []) ∧
      (RspqEmbed.writeBegin ovl cmd size st).1.trace =
          st.trace ++ (if st.sentinel < st.cur + size then [Ev.switchBuf] else []) ∧
      (RspqEmbed.writeBegin ovl cmd size st).2.first = st.cur ∧
      (RspqEmbed.writeBegin ovl cmd size st).1.cur = st.cur + size := by
  intro st ovl cmd size args
  refine ⟨?_, ?_, ?_, ?_⟩
  · simp only [RspqEmbed.write, RspqEmbed.nextBuffer]
    split <;> simp [List.append_assoc]
  · simp only [RspqEmbed.writeBegin, RspqEmbed.nextBuffer]
    split <;> simp
  · rfl
  · rfl

/-- C4: `RspQ::write` with more than `RSPQ_MAX_SHORT_COMMAND_SIZE` argument
words is rejected outright by the compile-time constant assertion (no partial
write happens), and an accepted `write` is exactly the unchecked `write` with
at most that many argument words; `RspQ::write_begin` fails its assertion on
any size above `RSPQ_MAX_COMMAND_SIZE` before reserving space, and an
accepted `write_begin` reserves exactly `size ≤ RSPQ_MAX_COMMAND_SIZE` words
past the start cursor. -/
theorem c4_oversized_rejected :
    ∀ (st : WState) (ovl cmd size : Nat) (args : List Nat),
      (RSPQ_MAX_SHORT_COMMAND_SIZE < args.length →
        RspqEmbed.writeChecked ovl cmd args st = none) ∧
      (∀ st1, RspqEmbed.writeChecked ovl cmd args st = some st1 →
        args.length ≤ RSPQ_MAX_SHORT_COMMAND_SIZE ∧
          st1 = RspqEmbed.write ovl cmd args st) ∧
      (RSPQ_MAX_COMMAND_SIZE < size →
        RspqEmbed.writeBeginChecked true ovl cmd size st =
          Except.error "The maximum command size is 63!") ∧
      (∀ r, RspqEmbed.writeBeginChecked true ovl cmd size st = Except.ok r →
        size ≤ RSPQ_MAX_COMMAND_SIZE ∧ r = RspqEmbed.writeBegin ovl cmd size st ∧
          r.1.cur = st.cur + size) := by
  intro st ovl cmd size args
  refine ⟨?_, ?_, ?_, ?_⟩
  · intro h
    unfold RspqEmbed.writeChecked
    rw [if_neg (by omega)]
  · intro st1 h
    unfold RspqEmbed.writeChecked at h
    split at h
    · rename_i hle
      refine ⟨hle, ?_⟩
      injection h with h1
      exact h1.symm
    · exact absurd h (by simp)
  · intro h
    unfold RspqEmbed.writeBeginChecked
    rw [if_pos ⟨rfl, h⟩]
  · intro r h
    unfold RspqEmbed.writeBeginChecked at h
    split at h
    · exact absurd h (by simp)
    · rename_i hc
      have hsz : size ≤ RSPQ_MAX_COMMAND_SIZE := by
        by_contra hlt
        exact hc ⟨rfl, by omega⟩
      have hr : r = RspqEmbed.writeBegin ovl cmd size st := by
        injection h with h1
        exact h1.symm
      refine ⟨hsz, hr, ?_⟩
      rw [hr]
      rfl

/-- C4 witness: a 17-argument `write` is rejected with no state change, and a
`write_begin` of size 64 fails its assertion. -/
theorem c4_oversized_rejected_witness :
    RspqEmbed.writeChecked 0x10000000 0x2 (List.replicate 17 0) ⟨0, 65, false, []⟩ = none ∧
      RspqEmbed.writeBeginChecked true 0x10000000 0x2 64 ⟨0, 65, false, []⟩ =
        Except.error "The maximum command size is 63!" :=
  ⟨(c4_oversized_rejected ⟨0, 65, false, []⟩ 0x10000000 0x2 64 (List.replicate 17 0)).1
      (by decide),
   (c4_oversized_rejected ⟨0, 65, false, []⟩ 0x10000000 0x2 64 (List.replicate 17 0)).2.2.1
      (by decide)⟩

/-- C5: dropping any of the five unfinished must-finish handles (the `Write`
command cursor, an `Attachment`, a `Highpri` segment, a `BlockBuilder`, and a
`TexMulti` bracket) triggers the drop-bomb hard failure with the handle's
`Undroppable::ERROR` message; it never completes silently. -/
theorem c5_drop_bomb_panics :
    ∀ h : MustFinish,
      RspqEmbed.dropUnfinished h = Except.error (RspqEmbed.dropMsg h) ∧
        ∀ u : Unit, RspqEmbed.dropUnfinished h ≠ Except.ok u := by
  intro h
  refine ⟨rfl, fun u hc => ?_⟩
  simp [RspqEmbed.dropUnfinished, RspqEmbed.dropBomb] at hc

/-- C6: `RspQ::block_begin` panics when the process-wide `rspq_block` pointer
is non-null (another block is being recorded); otherwise it starts recording,
setting `rspq_block` to the fresh block and redirecting subsequent writes
into the block buffer. -/
theorem c6_block_begin_asserts_not_recording :
    ∀ (g : BlockState) (fresh : Nat),
      (g.rspq_block ≠ none →
        RspqEmbed.block_begin g fresh =
          Except.error "assertion failed: rspq_block.is_null()") ∧
      (g.rspq_block = none →
        RspqEmbed.block_begin g fresh =
            Except.ok { rspq_block := some fresh, redirected := true } ∧
          ∀ g1, RspqEmbed.block_begin g fresh = Except.ok g1 → g1.redirected = true) := by
  intro g fresh
  rcases g with ⟨b, r⟩
  cases b
  · refine ⟨fun h => absurd rfl h, fun _ => ⟨rfl, fun g1 h1 => ?_⟩⟩
    have h2 : RspqEmbed.rspq_block_begin fresh = g1 := by
      injection h1
    rw [← h2]
    rfl
  · exact ⟨fun _ => rfl, fun h => by simp at h⟩

/-- C6 witness: with a block already recording `block_begin` fails the
assertion; with `rspq_block` null it starts recording and redirects. -/
theorem c6_block_begin_witness :
    RspqEmbed.block_begin ⟨some 7, true⟩ 9 =
        Except.error "assertion failed: rspq_block.is_null()" ∧
      RspqEmbed.block_begin ⟨none, false⟩ 9 =
        Except.ok { rspq_block := some 9, redirected := true } :=
  ⟨(c6_block_begin_asserts_not_recording ⟨some 7, true⟩ 9).1 (by simp),
   ((c6_block_begin_asserts_not_recording ⟨none, false⟩ 9).2 rfl).1⟩

/-- C7 (counterexample): the claim says that for every threshold > 0,
`mode_alphacompare` writes the blend-color register with alpha equal to the
threshold.  At threshold 300 the code writes the i32 truncated to u8: the
blend color carries alpha 44, not 300. -/
theorem c7_alphacompare_truncation_counterexample :
    RdpqEmbed.mode_alphacompare 300 =
        [RdpOp.modeChangeSom RdpqEmbed.SOM_ALPHACOMPARE_MASK
            RdpqEmbed.SOM_ALPHACOMPARE_THRESHOLD,
          RdpOp.setBlendColor 44] ∧
      (44 : Nat) ≠ 300 := by decide

/-- C7 (amended): for threshold > 0, `mode_alphacompare` sets the
alpha-compare-threshold mode bits and in the same call writes the blend-color
register with alpha equal to the threshold's low byte (equal to the threshold
itself whenever it is at most 255); for threshold = 0 or negative
(noise mode) only the mode bits change and no side register is written.  For
enable = true, `mode_zoverride` writes the prim-depth side register before
changing the `SOM_ZSOURCE_PRIM` mode bit; for enable = false only the mode
bit is cleared and no side register is written. -/
theorem c7_mode_side_registers_amended :
    ∀ (t : Int) (primZ : Nat) (dz : Int),
      (0 < t →
        RdpqEmbed.mode_alphacompare t =
          [RdpOp.modeChangeSom SOM_ALPHACOMPARE_MASK SOM_ALPHACOMPARE_THRESHOLD,
            RdpOp.setBlendColor (RdpqEmbed.colorU32 0 0 0 (t.toNat % 256))]) ∧
      (0 < t → t ≤ 255 →
        RdpqEmbed.mode_alphacompare t =
          [RdpOp.modeChangeSom SOM_ALPHACOMPARE_MASK SOM_ALPHACOMPARE_THRESHOLD,
            RdpOp.setBlendColor t.toNat]) ∧
      (t = 0 →
        RdpqEmbed.mode_alphacompare t = [RdpOp.modeChangeSom SOM_ALPHACOMPARE_MASK 0]) ∧
      (t < 0 →
        RdpqEmbed.mode_alphacompare t =
          [RdpOp.modeChangeSom SOM_ALPHACOMPARE_MASK SOM_ALPHACOMPARE_NOISE]) ∧
      RdpqEmbed.mode_zoverride true primZ dz =
        [RdpOp.setPrimDepthRaw primZ dz,
          RdpOp.modeChangeSom SOM_ZSOURCE_PRIM SOM_ZSOURCE_PRIM] ∧
      RdpqEmbed.mode_zoverride false primZ dz = [RdpOp.modeChangeSom SOM_ZSOURCE_PRIM 0] := by
  intro t primZ dz
  refine ⟨?_, ?_, ?_, ?_, rfl, rfl⟩
  · intro h
    unfold RdpqEmbed.mode_alphacompare
    rw [if_neg (by omega), if_pos h]
  · intro h h255
    unfold RdpqEmbed.mode_alphacompare
    rw [if_neg (by omega), if_pos h]
    have hm : t.toNat % 256 = t.toNat := Nat.mod_eq_of_lt (by omega)
    rw [hm]
    unfold RdpqEmbed.colorU32
    norm_num
  · intro h
    unfold RdpqEmbed.mode_alphacompare
    rw [if_pos h]
  · intro h
    unfold RdpqEmbed.mode_alphacompare
    rw [if_neg (by omega), if_neg (by omega)]

/-- C7 witness: thresholds 100, 0 and -1, evaluated through the amended
theorem. -/
theorem c7_mode_side_registers_witness :
    RdpqEmbed.mode_alphacompare 100 =
        [RdpOp.modeChangeSom SOM_ALPHACOMPARE_MASK SOM_ALPHACOMPARE_THRESHOLD,
          RdpOp.setBlendColor 100] ∧
      RdpqEmbed.mode_alphacompare 0 = [RdpOp.modeChangeSom SOM_ALPHACOMPARE_MASK 0] ∧
      RdpqEmbed.mode_alphacompare (-1) =
        [RdpOp.modeChangeSom SOM_ALPHACOMPARE_MASK SOM_ALPHACOMPARE_NOISE] :=
  ⟨by
    have h := (c7_mode_side_registers_amended 100 0 0).2.1 (by decide) (by decide)
    simpa using h,
   (c7_mode_side_registers_amended 0 0 0).2.2.1 rfl,
   (c7_mode_side_registers_amended (-1) 0 0).2.2.2.1 (by decide)⟩

/-- Forcing the blending bit on does not change the two-pass extension bit:
bits 14 and 15 are distinct. -/
theorem lor_blending_and_2pass (x : Nat) :
    (x ||| RdpqEmbed.SOM_BLENDING) &&& RdpqEmbed.SOMX_BLEND_2PASS =
      x &&& RdpqEmbed.SOMX_BLEND_2PASS := by
  unfold RdpqEmbed.SOM_BLENDING RdpqEmbed.SOMX_BLEND_2PASS
  apply Nat.eq_of_testBit_eq
  intro i
  simp only [Nat.testBit_land, Nat.testBit_lor]
  rcases eq_or_ne i 15 with h | h
  · subst h
    have h14 : Nat.testBit 16384 15 = false := by decide
    simp [h14]
  · have h15 : Nat.testBit 32768 i = false := by
      have h0 := Nat.testBit_two_pow_of_ne (show (15 : Nat) ≠ i from Ne.symm h)
      simpa using h0
    simp [h15]

/-- A value with `SOM_BLENDING` OR-ed in has the blending bit set. -/
theorem lor_blending_has_blending (x : Nat) :
    (x ||| RdpqEmbed.SOM_BLENDING) &&& RdpqEmbed.SOM_BLENDING = RdpqEmbed.SOM_BLENDING := by
  unfold RdpqEmbed.SOM_BLENDING
  apply Nat.eq_of_testBit_eq
  intro i
  simp only [Nat.testBit_land, Nat.testBit_lor]
  rcases eq_or_ne i 14 with h | h
  · subst h
    have h14 : Nat.testBit 16384 14 = true := by decide
    simp [h14]
  · have h14 : Nat.testBit 16384 i = false := by
      have h0 := Nat.testBit_two_pow_of_ne (show (14 : Nat) ≠ i from Ne.symm h)
      simpa using h0
    simp [h14]

/-- C8: `mode_fog` with a non-zero formula whose `SOMX_BLEND_2PASS` bit is
set panics with the assertion message; with 0 it clears the fog extension bit
without asserting; and with a valid non-zero one-pass formula it sets the fog
extension bit and forces the `SOM_BLENDING` bit on in the emitted formula. -/
theorem c8_fog_two_pass_assert :
    ∀ fog0 : Nat,
      (fog0 ≠ 0 → fog0 &&& SOMX_BLEND_2PASS ≠ 0 →
        RdpqEmbed.mode_fog fog0 =
          Except.error "Fogging cannot be used with two-pass blending formulas") ∧
      (RdpqEmbed.mode_fog 0 =
        Except.ok [RdpOp.modeChangeSom SOMX_FOG 0, RdpOp.setFogMode 0]) ∧
      (fog0 ≠ 0 → fog0 &&& SOMX_BLEND_2PASS = 0 →
        RdpqEmbed.mode_fog fog0 =
            Except.ok [RdpOp.modeChangeSom SOMX_FOG SOMX_FOG,
              RdpOp.setFogMode (fog0 ||| SOM_BLENDING)] ∧
          (fog0 ||| SOM_BLENDING) &&& SOM_BLENDING = SOM_BLENDING) := by
  intro fog0
  refine ⟨?_, rfl, ?_⟩
  · intro h0 h2
    unfold RdpqEmbed.mode_fog
    rw [if_pos h0]
    simp only []
    rw [if_pos (by rw [lor_blending_and_2pass]; exact h2)]
  · intro h0 h2
    refine ⟨?_, lor_blending_has_blending fog0⟩
    unfold RdpqEmbed.mode_fog
    rw [if_pos h0]
    simp only []
    rw [if_neg (by rw [lor_blending_and_2pass]; simpa using h2)]

/-- C8 witness: a two-pass formula (bit 15 set) asserts; a one-pass formula
succeeds with the blending bit forced on. -/
theorem c8_fog_two_pass_witness :
    RdpqEmbed.mode_fog 0x8000 =
        Except.error "Fogging cannot be used with two-pass blending formulas" ∧
      RdpqEmbed.mode_fog 0x11110000 =
        Except.ok [RdpOp.modeChangeSom SOMX_FOG SOMX_FOG,
          RdpOp.setFogMode (0x11110000 ||| SOM_BLENDING)] :=
  ⟨(c8_fog_two_pass_assert 0x8000).1 (by decide) (by decide),
   ((c8_fog_two_pass_assert 0x11110000).2.2 (by decide) (by decide)).1⟩

/-- C9: `RspQ::call_deferred(func, data)` is exactly `syncpoint_cb(func,
data)` followed by `flush()`: both the composed-state equation and the
resulting event stream and syncpoint counter agree. -/
theorem c9_call_deferred_is_syncpoint_cb_then_flush :
    ∀ (func arg : Nat) (st : QState),
      RspqEmbed.call_deferred func arg st =
          RspqEmbed.flush (RspqEmbed.syncpoint_cb func arg st).1 ∧
        (RspqEmbed.call_deferred func arg st).events =
          st.events ++ [QEv.syncpointCb func arg, QEv.flushEv] ∧
        (RspqEmbed.call_deferred func arg st).nextSync = st.nextSync + 1 := by
  intro f a st
  refine ⟨rfl, ?_, rfl⟩
  simp [RspqEmbed.call_deferred, RspqEmbed.flush, RspqEmbed.syncpoint_cb]

/-- C10: `RdpQ::load_block` with `tmem_pitch = 0` reaches the unguarded
division and panics with a divide-by-zero in debug builds (both debug
assertions accept 0) and in release builds (where the assertions are compiled
out); with `tmem_pitch ≥ 8` the division is total, and with the full
preconditions the call succeeds with the computed `dxt`. -/
theorem c10_load_block_zero_pitch_divides_by_zero :
    ∀ (numTexels pitch : Nat),
      (numTexels ≤ 2048 →
        RdpqEmbed.load_block true numTexels 0 = Except.error "attempt to divide by zero") ∧
      RdpqEmbed.load_block false numTexels 0 = Except.error "attempt to divide by zero" ∧
      (8 ≤ pitch → ∀ d : Bool,
        RdpqEmbed.load_block d numTexels pitch ≠ Except.error "attempt to divide by zero") ∧
      (8 ≤ pitch → pitch % 8 = 0 → numTexels ≤ 2048 → ∀ d : Bool,
        RdpqEmbed.load_block d numTexels pitch =
          Except.ok (numTexels, (2048 + pitch / 8 - 1) / (pitch / 8))) := by
  intro t p
  refine ⟨?_, ?_, ?_, ?_⟩
  · intro h
    unfold RdpqEmbed.load_block
    rw [if_neg (by simp [h]), if_neg (by simp)]
    simp only []
    rw [if_pos (by norm_num)]
  · unfold RdpqEmbed.load_block
    rw [if_neg (by simp), if_neg (by simp)]
    simp only []
    rw [if_pos (by norm_num)]
  · intro hp d
    have hw : p / 8 ≠ 0 := by
      have h1 : 1 ≤ p / 8 := Nat.one_le_div_iff (by omega) |>.mpr hp
      omega
    unfold RdpqEmbed.load_block
    split
    · intro hc
      injection hc with hs
      simp at hs
    · split
      · intro hc
        injection hc with hs
        simp at hs
      · simp only []
        rw [if_neg hw]
        intro hc
        exact Except.noConfusion hc
  · intro hp h8 ht d
    have hw : p / 8 ≠ 0 := by
      have h1 : 1 ≤ p / 8 := Nat.one_le_div_iff (by omega) |>.mpr hp
      omega
    unfold RdpqEmbed.load_block
    rw [if_neg (by simp [ht]), if_neg (by simp [h8])]
    simp only []
    rw [if_neg hw]

/-- C10 witness: pitch 0 divides by zero in both build profiles (with
num_texels passing the debug assertion), while pitch 16 computes dxt 1024. -/
theorem c10_load_block_witness :
    RdpqEmbed.load_block true 2048 0 = Except.error "attempt to divide by zero" ∧
      RdpqEmbed.load_block false 2048 0 = Except.error "attempt to divide by zero" ∧
      RdpqEmbed.load_block true 100 16 = Except.ok (100, 1024) :=
  ⟨(c10_load_block_zero_pitch_divides_by_zero 2048 0).1 (by decide),
   (c10_load_block_zero_pitch_divides_by_zero 2048 0).2.1,
   by
     have h := (c10_load_block_zero_pitch_divides_by_zero 100 16).2.2.2
       (by decide) (by decide) (by decide) true
     simpa using h⟩
